import Mathlib

/-
Verification of the server-bootstrap component
(src/python/src/mcp_server/run_hypercorn.py).

The embedding models:
  * CPython's `int(s)` base-10 string parsing (`pyInt`), restricted to
    ASCII digits and ASCII whitespace (the source is only ever fed ASCII
    environment strings);
  * `os.getenv(name, default)` over an environment that is just the
    optional value of ARCHON_MCP_PORT (`getenv`);
  * the Hypercorn `Config` fields that `main()` assigns (`Config`,
    `mkConfig`);
  * the startup banner printed by `main()` (`bannerLines`);
  * the `if __name__ == "__main__"` try/except wrapper (`runScript`),
    with console output modelled as a trace of events tagged by the
    stream they are written to (`print` writes to stdout,
    `traceback.print_exc()` writes to stderr) and the process exit code
    (0 when `main` is unwound by KeyboardInterrupt, since the handler
    falls through, and 1 via `sys.exit(1)` on any other exception).

Interrupts and serve-time faults are modelled by a scenario parameter:
`RunScenario.earlyInterrupt k` is a KeyboardInterrupt delivered inside
`main()` before `serve` starts (after `k - 1` banner lines for `k ≥ 1`,
or before the port is even read for `k = 0`), and
`RunScenario.serveFate f` lets `asyncio.run(serve(app, config))` end in
a KeyboardInterrupt or an arbitrary exception.
-/

/-- Stream a console line is written to: `print` targets stdout,
`traceback.print_exc()` targets stderr. -/
inductive OutStream where
  | stdout
  | stderr
deriving DecidableEq, Repr

/-- Observable events of a run: a line written to a stream, or the
moment `asyncio.run(serve(app, config))` is entered. -/
inductive Event where
  | line (s : OutStream) (msg : String)
  | serveStart
deriving DecidableEq, Repr

/-- ASCII whitespace stripped by CPython's `int()` before parsing. -/
def isPyWhitespace (c : Char) : Bool :=
  c = ' ' || c = '\t' || c = '\n' || c = '\r' || c = '\x0b' || c = '\x0c'

/-- Digit tail of a CPython integer literal: after the first digit,
digits may follow directly or after a single underscore that must sit
between two digits. -/
def pyDigitsAux : List Char → Nat → Option Nat
  | [], acc => some acc
  | ['_'], _ => none
  | '_' :: c :: rest, acc =>
      if c.isDigit then pyDigitsAux rest (acc * 10 + (c.toNat - 48)) else none
  | c :: rest, acc =>
      if c.isDigit then pyDigitsAux rest (acc * 10 + (c.toNat - 48)) else none

/-- CPython `int(s)` with base 10 on the character list of `s`:
optional surrounding whitespace, an optional sign, then a nonempty
digit string with underscores allowed only between digits.  `none`
models a raised `ValueError`. -/
def pyIntCore (cs : List Char) : Option Int :=
  let core := ((cs.dropWhile isPyWhitespace).reverse.dropWhile isPyWhitespace).reverse
  match core with
  | '+' :: c :: rest =>
      if c.isDigit then (pyDigitsAux rest (c.toNat - 48)).map Int.ofNat else none
  | '-' :: c :: rest =>
      if c.isDigit then (pyDigitsAux rest (c.toNat - 48)).map (fun n => -(Int.ofNat n))
      else none
  | c :: rest =>
      if c.isDigit then (pyDigitsAux rest (c.toNat - 48)).map Int.ofNat else none
  | [] => none

/-- CPython `int(s)` with base 10; `none` models a raised `ValueError`. -/
def pyInt (s : String) : Option Int :=
  pyIntCore s.data

/-- The message of the `ValueError` raised by `int(s)`, as CPython
formats it for a plain string (the argument is shown `repr`-quoted). -/
def valueErrorMsg (s : String) : String :=
  "invalid literal for int() with base 10: \x27" ++ s ++ "\x27"

/-- `os.getenv("ARCHON_MCP_PORT", default)`: the environment is the
optional value of the single variable the source reads. -/
def getenv (env : Option String) (default : String) : String :=
  env.getD default

/-- The Hypercorn `Config` fields assigned by `main()`. -/
structure Config where
  bind : List String
  alpn_protocols : List String
  workers : Nat
  worker_class : String
  accesslog : String
  errorlog : String
  loglevel : String
deriving DecidableEq, Repr

/-- The `Config` object as `main()` populates it, given the resolved
host and port (`config.bind = [f"{host}:{port}"]` and the fixed
protocol, worker and logging settings). -/
def mkConfig (host : String) (port : Int) : Config :=
  { bind := [host ++ ":" ++ toString port]
  , alpn_protocols := ["h2", "http/1.1"]
  , workers := 1
  , worker_class := "asyncio"
  , accesslog := "-"
  , errorlog := "-"
  , loglevel := "INFO" }

/-- `port = int(os.getenv("ARCHON_MCP_PORT", "8051"))`; `none` models
the `ValueError` raised when the variable is set to a string `int()`
rejects. -/
def configurePort (env : Option String) : Option Int :=
  pyInt (getenv env "8051")

/-- The configuration step of `main()` as a whole: the fixed host, the
resolved port and the populated `Config`; `none` models the
`ValueError` propagating out of `int()`. -/
def configure (env : Option String) : Option (String × Int × Config) :=
  (configurePort env).map (fun port => ("0.0.0.0", port, mkConfig "0.0.0.0" port))

/-- The five startup lines `main()` prints before serving. -/
def bannerLines (host : String) (port : Int) : List String :=
  [ "🚀 Starting MCP server with Hypercorn"
  , "   Host: " ++ host
  , "   Port: " ++ toString port
  , "   HTTP/2: Enabled"
  , "   URL: http://" ++ host ++ ":" ++ toString port ++ "/mcp" ]

/-- How `asyncio.run(serve(app, config))` ends: unwound by a
KeyboardInterrupt, or by some other exception (a serve-time fault). -/
inductive ServeFate where
  | interrupt
  | fault (msg : String)
deriving DecidableEq, Repr

/-- Where the run is driven from outside: a KeyboardInterrupt delivered
inside `main()` before `serve` is entered (`earlyInterrupt k`: for
`k = 0` before the port is read, for `k ≥ 1` after `min (k - 1) 5`
banner lines), or `serve` is reached and ends as `ServeFate` says. -/
inductive RunScenario where
  | earlyInterrupt (stage : Nat)
  | serveFate (f : ServeFate)
deriving DecidableEq, Repr

/-- How the call `main()` terminates: it never returns normally (either
`serve` runs until an interrupt or a fault, or configuration raises),
so it either raises KeyboardInterrupt or raises some other exception
carrying a message. -/
inductive MainExit where
  | keyboardInterrupt
  | exception (msg : String)
deriving DecidableEq, Repr

/-- The body of `main()`: resolve the port (raising `ValueError` on an
invalid override), build the config, print the banner, enter
`asyncio.run(serve(app, config))`.  Returns the event trace emitted by
`main()` itself together with the exception that terminates it under
the given scenario. -/
def pyMain (env : Option String) (scenario : RunScenario) : List Event × MainExit :=
  match scenario with
  | RunScenario.earlyInterrupt 0 => ([], MainExit.keyboardInterrupt)
  | RunScenario.earlyInterrupt (n + 1) =>
      match pyInt (getenv env "8051") with
      | none => ([], MainExit.exception (valueErrorMsg (getenv env "8051")))
      | some port =>
          (((bannerLines "0.0.0.0" port).take n).map (Event.line OutStream.stdout),
           MainExit.keyboardInterrupt)
  | RunScenario.serveFate f =>
      match pyInt (getenv env "8051") with
      | none => ([], MainExit.exception (valueErrorMsg (getenv env "8051")))
      | some port =>
          ((bannerLines "0.0.0.0" port).map (Event.line OutStream.stdout)
             ++ [Event.serveStart],
           match f with
           | ServeFate.interrupt => MainExit.keyboardInterrupt
           | ServeFate.fault msg => MainExit.exception msg)

/-- The text `traceback.print_exc()` writes to stderr, abstracted to a
single stderr line carrying the fault detail. -/
def tracebackText (msg : String) : String :=
  "Traceback (most recent call last): " ++ msg

/-- The `if __name__ == "__main__"` wrapper: run `main()`; on
KeyboardInterrupt print the shutdown notice and fall through (process
exit status 0); on any other exception print the fatal-error line to
stdout, the traceback to stderr, and call `sys.exit(1)`. -/
def runScript (env : Option String) (scenario : RunScenario) : List Event × Nat :=
  match pyMain env scenario with
  | (trace, MainExit.keyboardInterrupt) =>
      (trace ++ [Event.line OutStream.stdout "👋 MCP server stopped by user"], 0)
  | (trace, MainExit.exception msg) =>
      (trace ++ [Event.line OutStream.stdout ("💥 Fatal error: " ++ msg),
                 Event.line OutStream.stderr (tracebackText msg)], 1)

/-- C1 counterexample: with ARCHON_MCP_PORT set to the invalid string
"x", `configure()` does not yield the default port 8051 — `int()`
raises, and the malformed input is surfaced as a failure: the process
exits with status 1 rather than recovering to the default. -/
theorem c1_invalid_port_counterexample :
    configurePort (some "x") ≠ some 8051 ∧
    configure (some "x") = none ∧
    (runScript (some "x") (RunScenario.serveFate ServeFate.interrupt)).2 = 1 := by
  decide

/-- C1 amended: only an absent ARCHON_MCP_PORT falls back to the
default port 8051.  A value that `int()` rejects raises `ValueError`,
which propagates and is surfaced as a fatal failure with exit status 1;
a value parsing as a non-positive integer is used as the port itself,
not replaced by the default. -/
theorem c1_amended (s t : String) (v : Int) (hs : pyInt s = none)
    (ht : pyInt t = some v) (f : ServeFate) :
    configurePort none = some 8051 ∧
    configure (some s) = none ∧
    (runScript (some s) (RunScenario.serveFate f)).2 = 1 ∧
    configurePort (some t) = some v := by
  have hs' : pyInt (getenv (some s) "8051") = none := hs
  refine ⟨by decide, ?_, ?_, ht⟩
  · simp [configure, configurePort, getenv, hs]
  · simp [runScript, pyMain, hs']

/-- C1 amended witness at s = "x", t = "-3". -/
theorem c1_amended_witness :
    configurePort none = some 8051 ∧
    configure (some "x") = none ∧
    (runScript (some "x") (RunScenario.serveFate ServeFate.interrupt)).2 = 1 ∧
    configurePort (some "-3") = some (-3) :=
  c1_amended "x" "-3" (-3) (by decide) (by decide) ServeFate.interrupt

/-- C2: for every string p that parses as a positive integer v, setting
ARCHON_MCP_PORT to p makes `configure()` yield the wildcard host, the
port v, and the config bound to that port. -/
theorem c2_valid_port_override (p : String) (v : Int) (hv : pyInt p = some v)
    (hpos : 0 < v) :
    configure (some p) = some ("0.0.0.0", v, mkConfig "0.0.0.0" v) := by
  simp [configure, configurePort, getenv, hv]

/-- C2 witness at p = "9000". -/
theorem c2_valid_port_override_witness :
    configure (some "9000") = some ("0.0.0.0", 9000, mkConfig "0.0.0.0" 9000) :=
  c2_valid_port_override "9000" 9000 (by decide) (by decide)

/-- C3: when serve() is unwound by an interrupt signal, the run prints
the human-readable shutdown notice as its final output line and the
process exit status is 0. -/
theorem c3_interrupt_during_serve (env : Option String) (p : Int)
    (hp : configurePort env = some p) :
    (runScript env (RunScenario.serveFate ServeFate.interrupt)).2 = 0 ∧
    (runScript env (RunScenario.serveFate ServeFate.interrupt)).1
      = ((bannerLines "0.0.0.0" p).map (Event.line OutStream.stdout)
          ++ [Event.serveStart])
        ++ [Event.line OutStream.stdout "👋 MCP server stopped by user"] := by
  have hp' : pyInt (getenv env "8051") = some p := hp
  exact ⟨by simp [runScript, pyMain, hp'], by simp [runScript, pyMain, hp']⟩

/-- C3 witness with the variable absent (port 8051). -/
theorem c3_interrupt_during_serve_witness :
    (runScript none (RunScenario.serveFate ServeFate.interrupt)).2 = 0 ∧
    (runScript none (RunScenario.serveFate ServeFate.interrupt)).1
      = ((bannerLines "0.0.0.0" 8051).map (Event.line OutStream.stdout)
          ++ [Event.serveStart])
        ++ [Event.line OutStream.stdout "👋 MCP server stopped by user"] :=
  c3_interrupt_during_serve none 8051 (by decide)

/-- C4 counterexample: on a serve-time fault "boom" the process exits
with status 1, but the diagnostic message line is written to standard
output (print), not to the error stream — only the trace goes to
stderr.  This refutes the claim that the diagnostic message is emitted
to the error stream. -/
theorem c4_fault_stream_counterexample :
    (runScript none (RunScenario.serveFate (ServeFate.fault "boom"))).2 = 1 ∧
    Event.line OutStream.stdout "💥 Fatal error: boom"
      ∈ (runScript none (RunScenario.serveFate (ServeFate.fault "boom"))).1 ∧
    Event.line OutStream.stderr "💥 Fatal error: boom"
      ∉ (runScript none (RunScenario.serveFate (ServeFate.fault "boom"))).1 := by
  decide

/-- C4 amended: whenever main() is unwound by an uncaught fault —
during setup (the ValueError raised by int() on an invalid port
override) or during serving (a fault out of serve) — a diagnostic
message is emitted to standard output, the full fault trace is emitted
to the error stream as the final output, and the process exits with
status 1. -/
theorem c4_amended (env : Option String) (sc : RunScenario) (msg : String)
    (hex : (pyMain env sc).2 = MainExit.exception msg) :
    (runScript env sc).2 = 1 ∧
    ∃ pre, (runScript env sc).1
      = pre ++ [Event.line OutStream.stdout ("💥 Fatal error: " ++ msg),
                Event.line OutStream.stderr (tracebackText msg)] := by
  rcases hpm : pyMain env sc with ⟨trace, ex⟩
  rw [hpm] at hex
  simp at hex
  subst hex
  refine ⟨by simp [runScript, hpm], trace, by simp [runScript, hpm]⟩

/-- C4 amended witness at the setup fault: ARCHON_MCP_PORT = "x" makes
int() raise before serve is ever entered. -/
theorem c4_amended_witness :
    (runScript (some "x") (RunScenario.serveFate ServeFate.interrupt)).2 = 1 ∧
    ∃ pre, (runScript (some "x") (RunScenario.serveFate ServeFate.interrupt)).1
      = pre ++ [Event.line OutStream.stdout
                  ("💥 Fatal error: " ++ valueErrorMsg "x"),
                Event.line OutStream.stderr (tracebackText (valueErrorMsg "x"))] :=
  c4_amended (some "x") (RunScenario.serveFate ServeFate.interrupt)
    (valueErrorMsg "x") (by decide)

/-- C5: every configuration the bootstrap builds offers exactly the
application-layer protocol list ["h2", "http/1.1"], h2 first. -/
theorem c5_alpn_protocols (host : String) (port : Int) :
    (mkConfig host port).alpn_protocols = ["h2", "http/1.1"] :=
  rfl

/-- C6: every configuration produced by configure() has the wildcard
host "0.0.0.0" and binds "0.0.0.0:<port>"; in particular with
ARCHON_MCP_PORT = "9000" the bind address is ("0.0.0.0", 9000). -/
theorem c6_wildcard_host (env : Option String) (h : String) (p : Int)
    (c : Config) (hc : configure env = some (h, p, c)) :
    h = "0.0.0.0" ∧ c.bind = ["0.0.0.0:" ++ toString p] ∧
    (env = some "9000" → p = 9000 ∧ c.bind = ["0.0.0.0:9000"]) := by
  rcases hq : configurePort env with _ | q
  · simp [configure, hq] at hc
  · simp [configure, hq] at hc
    obtain ⟨hh, hp, hcfg⟩ := hc
    subst hh hp hcfg
    refine ⟨rfl, rfl, ?_⟩
    intro he
    subst he
    have h9 : configurePort (some "9000") = some 9000 := by decide
    rw [hq] at h9
    have hq9 : q = 9000 := by exact Option.some.inj h9
    subst hq9
    exact ⟨rfl, rfl⟩

/-- C6 witness at ARCHON_MCP_PORT = "9000". -/
theorem c6_wildcard_host_witness :
    "0.0.0.0" = "0.0.0.0" ∧
    (mkConfig "0.0.0.0" 9000).bind = ["0.0.0.0:" ++ toString (9000 : Int)] ∧
    (some "9000" = some "9000" →
      (9000 : Int) = 9000 ∧ (mkConfig "0.0.0.0" 9000).bind = ["0.0.0.0:9000"]) :=
  c6_wildcard_host (some "9000") "0.0.0.0" 9000 (mkConfig "0.0.0.0" 9000)
    (by decide)

/-- C7: in any run that reaches serve(), every startup banner line is
emitted before serve is entered, and the banner reports the host, the
port, the protocol-enablement status and the served URL. -/
theorem c7_banner_before_serve (env : Option String) (p : Int) (f : ServeFate)
    (hp : configurePort env = some p) :
    (pyMain env (RunScenario.serveFate f)).1
      = (bannerLines "0.0.0.0" p).map (Event.line OutStream.stdout)
        ++ [Event.serveStart] ∧
    bannerLines "0.0.0.0" p
      = [ "🚀 Starting MCP server with Hypercorn"
        , "   Host: 0.0.0.0"
        , "   Port: " ++ toString p
        , "   HTTP/2: Enabled"
        , "   URL: http://0.0.0.0:" ++ toString p ++ "/mcp" ] := by
  have hp' : pyInt (getenv env "8051") = some p := hp
  exact ⟨by simp [pyMain, hp'], rfl⟩

/-- C7 witness with the variable absent and serve ending by interrupt. -/
theorem c7_banner_before_serve_witness :
    (pyMain none (RunScenario.serveFate ServeFate.interrupt)).1
      = (bannerLines "0.0.0.0" 8051).map (Event.line OutStream.stdout)
        ++ [Event.serveStart] ∧
    bannerLines "0.0.0.0" 8051
      = [ "🚀 Starting MCP server with Hypercorn"
        , "   Host: 0.0.0.0"
        , "   Port: " ++ toString (8051 : Int)
        , "   HTTP/2: Enabled"
        , "   URL: http://0.0.0.0:" ++ toString (8051 : Int) ++ "/mcp" ] :=
  c7_banner_before_serve none 8051 ServeFate.interrupt (by decide)

/-- C8: every configuration produced by configure() has exactly one
worker under the asyncio worker class, and routes access and error logs
to "-" (Hypercorn's sentinel for the process's stdout/stderr streams)
at minimum severity INFO. -/
theorem c8_concurrency_and_logging (env : Option String) (h : String)
    (p : Int) (c : Config) (hc : configure env = some (h, p, c)) :
    c.workers = 1 ∧ c.worker_class = "asyncio" ∧
    c.accesslog = "-" ∧ c.errorlog = "-" ∧ c.loglevel = "INFO" := by
  rcases hq : configurePort env with _ | q
  · simp [configure, hq] at hc
  · simp [configure, hq] at hc
    obtain ⟨hh, hp, hcfg⟩ := hc
    subst hcfg
    exact ⟨rfl, rfl, rfl, rfl, rfl⟩

/-- C8 witness with the variable absent. -/
theorem c8_concurrency_and_logging_witness :
    (mkConfig "0.0.0.0" 8051).workers = 1 ∧
    (mkConfig "0.0.0.0" 8051).worker_class = "asyncio" ∧
    (mkConfig "0.0.0.0" 8051).accesslog = "-" ∧
    (mkConfig "0.0.0.0" 8051).errorlog = "-" ∧
    (mkConfig "0.0.0.0" 8051).loglevel = "INFO" :=
  c8_concurrency_and_logging none "0.0.0.0" 8051 (mkConfig "0.0.0.0" 8051)
    (by decide)

/-- C9: an interrupt delivered at any point of the top-level run —
any scenario in which main() is unwound by KeyboardInterrupt, including
during configuration or banner printing before serve is entered —
still prints the shutdown notice as the final line and exits with
status 0, because the handler wraps the whole main() call. -/
theorem c9_interrupt_anywhere (env : Option String) (sc : RunScenario)
    (hki : (pyMain env sc).2 = MainExit.keyboardInterrupt) :
    (runScript env sc).2 = 0 ∧
    ∃ pre, (runScript env sc).1
      = pre ++ [Event.line OutStream.stdout "👋 MCP server stopped by user"] := by
  rcases hpm : pyMain env sc with ⟨trace, ex⟩
  rw [hpm] at hki
  simp at hki
  subst hki
  refine ⟨by simp [runScript, hpm], trace, by simp [runScript, hpm]⟩

/-- C9 witness: interrupt after two banner lines, before serve. -/
theorem c9_interrupt_anywhere_witness :
    (runScript none (RunScenario.earlyInterrupt 3)).2 = 0 ∧
    ∃ pre, (runScript none (RunScenario.earlyInterrupt 3)).1
      = pre ++ [Event.line OutStream.stdout "👋 MCP server stopped by user"] :=
  c9_interrupt_anywhere none (RunScenario.earlyInterrupt 3) (by decide)

/-- C10: configuration construction is deterministic — it depends only
on the value (or absence) of ARCHON_MCP_PORT, so two runs over equal
environments produce identical port resolutions and identical
configurations in every field. -/
theorem c10_deterministic_configuration (e1 e2 : Option String)
    (h : e1 = e2) :
    configurePort e1 = configurePort e2 ∧ configure e1 = configure e2 := by
  subst h
  exact ⟨rfl, rfl⟩

/-- C10 witness at two runs with ARCHON_MCP_PORT = "9000". -/
theorem c10_deterministic_configuration_witness :
    configurePort (some "9000") = configurePort (some "9000") ∧
    configure (some "9000") = configure (some "9000") :=
  c10_deterministic_configuration (some "9000") (some "9000") rfl
